import Mathlib

/-!
Shallow embedding of `src/app.py`, a Streamlit dashboard that loads a customer
table, fits a preprocessing → PCA → KMeans pipeline once, saves the fitted
pipeline, and renders one of five charts chosen from a dropdown.

The scikit-learn / pandas library calls are not part of this repository; the
script is modelled as a pure function parameterised by a record of library
functions (`SkLib`).  Library guarantees that the script relies on (KMeans
labels lie in `[0, n_clusters)`, PCA output width equals `n_components`, row
counts are preserved) are stated as explicit contract predicates and assumed
as hypotheses where a claim needs them.  Randomness is made explicit: each
randomised stage takes a seed, the script passes the hard-coded
`RANDOM_STATE = 42` (an unset `random_state` would fall back to ambient
entropy, modelled by the `ambient` argument of `runScript`).

Side effects (Streamlit writes, `st.error`, chart renders, `joblib.dump`,
and each `fit` of a pipeline stage) are recorded in an effect trace.
-/

namespace App

/-- A pandas cell: either numeric or a string (the `Gender` column). -/
inductive Value where
  | num (q : Rat)
  | str (s : String)
deriving DecidableEq, Repr

/-- A pandas dataframe: named columns and rows of cells. -/
structure DataFrame where
  columns : List String
  rows : List (List Value)
deriving DecidableEq, Repr

/-- Index of a column name, as pandas column lookup. -/
def DataFrame.colIdx (df : DataFrame) (c : String) : Option Nat :=
  df.columns.indexOf? c

/-- The cell of `row` in column `c` of `df` (default `0` is never reached on
the columns the script accesses). -/
def cellAt (df : DataFrame) (row : List Value) (c : String) : Value :=
  match df.colIdx c with
  | some i => row.getD i (Value.num 0)
  | none => Value.num 0

/-- `df_new[name] = vals`, on a fresh frame (the script only assigns new
columns to copies, never in place). -/
def DataFrame.addColumn (df : DataFrame) (name : String) (vals : List Value) : DataFrame :=
  { columns := df.columns ++ [name]
    rows := df.rows.zipWith (fun r v => r ++ [v]) vals }

/-- The library functions the script calls, as deterministic functions of
their inputs and an explicit seed.  `preprocessFT` is the fitted
`ColumnTransformer` (StandardScaler + OneHotEncoder) transform, `pcaFT` is
`PCA(n_components, random_state).fit_transform`, `kmeansLabels` /
`kmeansCenters` are the `labels_` / `cluster_centers_` of a fitted
`KMeans(n_clusters, random_state, n_init)`. -/
structure SkLib where
  preprocessFT : DataFrame → List (List Rat)
  pcaFT : Nat → Nat → List (List Rat) → List (List Rat)
  kmeansLabels : Nat → Nat → Nat → List (List Rat) → List Nat
  kmeansCenters : Nat → Nat → Nat → List (List Rat) → List (List Rat)

/-- Library contract: preprocessing keeps one output row per input row. -/
def PreprocessRowsContract (lib : SkLib) : Prop :=
  ∀ df : DataFrame, (lib.preprocessFT df).length = df.rows.length

/-- Library contract: PCA keeps one output row per input row. -/
def PcaRowsContract (lib : SkLib) : Prop :=
  ∀ (n s : Nat) (X : List (List Rat)), (lib.pcaFT n s X).length = X.length

/-- Library contract: each PCA output row has `n_components` entries. -/
def PcaWidthContract (lib : SkLib) : Prop :=
  ∀ (n s : Nat) (X : List (List Rat)), ∀ r ∈ lib.pcaFT n s X, r.length = n

/-- Library contract: KMeans emits one label per input row. -/
def KMeansLenContract (lib : SkLib) : Prop :=
  ∀ (k s i : Nat) (X : List (List Rat)), (lib.kmeansLabels k s i X).length = X.length

/-- Library contract: KMeans labels lie in `[0, n_clusters)`. -/
def KMeansRangeContract (lib : SkLib) : Prop :=
  ∀ (k s i : Nat) (X : List (List Rat)), 0 < k → ∀ l ∈ lib.kmeansLabels k s i X, l < k

/-- `DADOS` (line 43). -/
def DADOS : String := "dados/Mall_Customers_no_CustomerID.csv"

/-- `RANDOM_STATE = 42` (line 44). -/
def RANDOM_STATE : Nat := 42

/-- Constructor arguments of `PCA(...)` (line 61): a `random_state` of `None`
would mean fresh entropy, the script passes the fixed seed. -/
structure PCAParams where
  nComponents : Nat
  randomState : Option Nat
deriving DecidableEq, Repr

/-- Constructor arguments of `KMeans(...)` (line 62). -/
structure KMeansParams where
  nClusters : Nat
  randomState : Option Nat
  nInit : Nat
deriving DecidableEq, Repr

/-- `PCA(n_components=3, random_state=RANDOM_STATE)`. -/
def pcaParams : PCAParams := ⟨3, some RANDOM_STATE⟩

/-- `KMeans(n_clusters=5, random_state=RANDOM_STATE, n_init=10)`. -/
def kmeansParams : KMeansParams := ⟨5, some RANDOM_STATE, 10⟩

/-- A fixed `random_state` wins over ambient entropy. -/
def resolveSeed (rs : Option Nat) (ambient : Nat) : Nat := rs.getD ambient

/-- One scatter call of the loop in `visualizar_cluster` (line 84): colour
index, the plotted coordinate triples, and the legend label. -/
structure ScatterLayer where
  colorIdx : Nat
  pts : List (List Value)
  legend : String
deriving DecidableEq, Repr

/-- A rendered chart, by branch of the script. -/
inductive Chart where
  | pairplot (df : DataFrame) (hue : String) (palette : String)
  | boxplots (df : DataFrame) (x : String) (hue : String) (ycols : List String)
  | scatter3d (layers : List ScatterLayer) (centroids : Option (List (List Rat)))
      (xlabel : String) (ylabel : String) (zlabel : String)
deriving DecidableEq, Repr

/-- One observable side effect of the script. -/
inductive Effect where
  | markdown (s : String)
  | title (s : String)
  | write (s : String)
  | header (s : String)
  | subheader (s : String)
  | error (s : String)
  | pyplot (c : Chart)
  | dump (path : String)
  | fitStage (stage : String)
deriving DecidableEq, Repr

/-- An integer cluster label as a numeric pandas cell. -/
def labelValue (l : Nat) : Value := Value.num l

/-- Python renders `None` inside an f-string as `"None"`. -/
def ocString : Option String → String
  | some s => s
  | none => "None"

/-- `coluna_clusters in dataframe.columns` (`None` is in no column list). -/
def colContains (cols : List String) : Option String → Bool
  | some c => cols.contains c
  | none => false

/-- `dataframe[dataframe[coluna_clusters] == i]` (line 83). -/
def filterByCluster (df : DataFrame) (col : Option String) (i : Nat) : List (List Value) :=
  df.rows.filter (fun r =>
    match col with
    | some c => cellAt df r c == labelValue i
    | none => false)

/-- `visualizar_cluster` (lines 74-91): guard on the cluster column, then one
scatter layer per colour, optionally restricted to that cluster's rows, plus
an optional centroid overlay. -/
def visualizar_cluster (dataframe : DataFrame) (colunas : List String)
    (quantidade_cores : Nat) (centroids : Option (List (List Rat)))
    (mostrar_pontos : Bool) (coluna_clusters : Option String) : List Effect :=
  if colContains dataframe.columns coluna_clusters = false then
    [Effect.error ("Coluna '" ++ ocString coluna_clusters ++ "' não encontrada no dataframe.")]
  else
    let layers := (List.range quantidade_cores).map (fun i =>
      let pontos := if mostrar_pontos then filterByCluster dataframe coluna_clusters i
        else dataframe.rows
      ({ colorIdx := i
         pts := pontos.map (fun r => colunas.map (cellAt dataframe r))
         legend := "Cluster " ++ toString i } : ScatterLayer))
    [Effect.pyplot (Chart.scatter3d layers centroids
      (colunas.getD 0 "") (colunas.getD 1 "") (colunas.getD 2 ""))]

/-- Output of the fitted `preprocessing` stage on `df`. -/
def preprocessedX (lib : SkLib) (df : DataFrame) : List (List Rat) :=
  lib.preprocessFT df

/-- Output of the fitted `preprocessing → pca` prefix on `df` (also the value
of `pipeline[:-1].fit_transform(df)` in the 3-D branches: same stages, same
data, same seed). -/
def pcaX (lib : SkLib) (ambient : Nat) (df : DataFrame) : List (List Rat) :=
  lib.pcaFT pcaParams.nComponents (resolveSeed pcaParams.randomState ambient)
    (preprocessedX lib df)

/-- `pipeline["clustering"].labels_` after `pipeline.fit(df)` (line 66). -/
def fittedLabels (lib : SkLib) (ambient : Nat) (df : DataFrame) : List Nat :=
  lib.kmeansLabels kmeansParams.nClusters (resolveSeed kmeansParams.randomState ambient)
    kmeansParams.nInit (pcaX lib ambient df)

/-- `pipeline["clustering"].cluster_centers_` (line 151). -/
def fittedCenters (lib : SkLib) (ambient : Nat) (df : DataFrame) : List (List Rat) :=
  lib.kmeansCenters kmeansParams.nClusters (resolveSeed kmeansParams.randomState ambient)
    kmeansParams.nInit (pcaX lib ambient df)

/-- `df_clustered = df.copy(); df_clustered["cluster"] = labels_` (lines 67-68). -/
def df_clustered (lib : SkLib) (ambient : Nat) (df : DataFrame) : DataFrame :=
  df.addColumn "cluster" ((fittedLabels lib ambient df).map labelValue)

/-- `pd.DataFrame(pipeline[:-1].fit_transform(df), columns=["pca0".."pca2"])`
(lines 131-134 and 146-149). -/
def dfPcaBase (lib : SkLib) (ambient : Nat) (df : DataFrame) : DataFrame :=
  { columns := (List.range 3).map (fun i => "pca" ++ toString i)
    rows := (pcaX lib ambient df).map (fun r => r.map Value.num) }

/-- `df_pca["cluster"] = pipeline["clustering"].labels_` (lines 135 and 150). -/
def dfPca (lib : SkLib) (ambient : Nat) (df : DataFrame) : DataFrame :=
  (dfPcaBase lib ambient df).addColumn "cluster"
    ((fittedLabels lib ambient df).map labelValue)

/-- `df_clustered.select_dtypes("number")`: the columns all of whose cells are
numeric. -/
def numericColumns (df : DataFrame) : List String :=
  df.columns.filter (fun c =>
    df.rows.all (fun r => match cellAt df r c with
      | Value.num _ => true
      | Value.str _ => false))

/-- `joblib.dump` target path (line 71). -/
def MODEL_PATH : String := "modelos/pipeline_preprocessing_pca_clustering.pkl"

/-- The five options of the `selectbox` (line 100). -/
def OPCOES : List String :=
  ["Pairplot", "Boxplot por Cluster", "Boxplot por Gênero",
   "Cluster em 3D (sem dispersão)", "Cluster em 3D (com dispersão)"]

/-- `pipeline.fit(df)` fits the three stages in order (line 66). -/
def fitEffects : List Effect :=
  [Effect.fitStage "preprocessing", Effect.fitStage "pca", Effect.fitStage "clustering"]

/-- `pipeline[:-1].fit_transform(df)` refits the two prefix stages. -/
def fitPrefixEffects : List Effect :=
  [Effect.fitStage "preprocessing", Effect.fitStage "pca"]

/-- The custom-CSS markdown block (lines 30-39). -/
def cssMarkdown : String :=
  "\n    <style>\n    .main \x7b\n        background-color: #303030;\n    \x7d\n    .sidebar .sidebar-content \x7b\n        background-color: #424242;\n    \x7d\n    </style>\n    "

/-- Everything the script does before the visualisation branch (lines 30-95):
CSS markdown, the three stage fits, the model dump, title and intro. -/
def preEffects : List Effect :=
  [Effect.markdown cssMarkdown,
   Effect.fitStage "preprocessing", Effect.fitStage "pca", Effect.fitStage "clustering",
   Effect.dump MODEL_PATH,
   Effect.title "Análise de Cluster de Clientes",
   Effect.write "## Visualize a análise de clusters em tempo real. Selecione a visualização desejada e explore os dados!"]

/-- The static conclusion section (lines 163-199). -/
def conclusionEffects : List Effect :=
  [Effect.header "Conclusão do Projeto de Clusterização de Clientes",
   Effect.subheader "Resumo dos Principais Aspectos e Resultados",
   Effect.write "Neste projeto, realizamos uma análise detalhada dos dados de clientes, aplicando técnicas de pré-processamento, visualização e clusterização. Utilizamos gráficos 2D e 3D para interpretar melhor a distribuição dos clusters e identificar padrões e correlações. Implementamos a redução de dimensionalidade com PCA para melhorar a qualidade dos clusters e facilitar a visualização.",
   Effect.subheader "Descrição dos Clusters Antes do PCA",
   Effect.write "Tabela: pontuação de gastos, renda e idade por cluster (0 a 4).",
   Effect.subheader "Análise dos Resultados",
   Effect.write "Tabela: idade, renda anual, score de gastos e observações por cluster, após o PCA.",
   Effect.subheader "Conclusão Final",
   Effect.write "Através desta análise, conseguimos segmentar os clientes em grupos distintos, facilitando a compreensão dos diferentes perfis de consumidores. Essas informações são valiosas para estratégias de marketing, crédito e tomada de decisões empresariais. A utilização de técnicas avançadas como PCA e visualizações 3D permitiu uma análise mais precisa e detalhada dos dados, revelando padrões importantes que não seriam aparentes em uma análise superficial."]

/-- The `if/elif` dispatch on the selected visualisation (lines 104-159). -/
def branchEffects (lib : SkLib) (ambient : Nat) (df : DataFrame) (mode : String) : List Effect :=
  if mode = "Pairplot" then
    [Effect.write "### Pairplot dos Clusters",
     Effect.write "Este gráfico mostra a distribuição dos clusters com base nas variáveis originais.",
     Effect.pyplot (Chart.pairplot (df_clustered lib ambient df) "cluster" "tab10")]
  else if mode = "Boxplot por Cluster" then
    [Effect.write "### Boxplot por Cluster",
     Effect.write "Compare as distribuições das variáveis para cada cluster.",
     Effect.pyplot (Chart.boxplots (df_clustered lib ambient df) "cluster" "cluster"
       ((numericColumns (df_clustered lib ambient df)).take 3))]
  else if mode = "Boxplot por Gênero" then
    [Effect.write "### Boxplot por Gênero",
     Effect.write "Compare as distribuições das variáveis para cada gênero dentro dos clusters.",
     Effect.pyplot (Chart.boxplots (df_clustered lib ambient df) "cluster" "Gender"
       ((numericColumns (df_clustered lib ambient df)).take 3))]
  else if mode = "Cluster em 3D (sem dispersão)" then
    [Effect.write "### Cluster em 3D (sem dispersão)",
     Effect.write "Visualização dos clusters em 3D após aplicação do PCA."] ++
    fitPrefixEffects ++
    visualizar_cluster (dfPca lib ambient df) ["pca0", "pca1", "pca2"] 5
      none false (some "cluster")
  else if mode = "Cluster em 3D (com dispersão)" then
    [Effect.write "### Cluster em 3D (com dispersão)",
     Effect.write "Visualização dos clusters em 3D com dispersão após aplicação do PCA."] ++
    fitPrefixEffects ++
    visualizar_cluster (dfPca lib ambient df) ["pca0", "pca1", "pca2"] 5
      (some (fittedCenters lib ambient df)) true (some "cluster")
  else []

/-- The observable outcome of one top-to-bottom run of the script. -/
structure ScriptResult where
  trace : List Effect
  dfOut : DataFrame
  clustered : DataFrame
  labels : List Nat
deriving Repr

/-- One run of `app.py`: load `df`, fit the pipeline, dump it, dispatch on
the selected mode, print the conclusion.  `ambient` is the entropy an unset
`random_state` would use; `df` is the table read from `DADOS`. -/
def runScript (lib : SkLib) (ambient : Nat) (df : DataFrame) (mode : String) : ScriptResult :=
  { trace := preEffects ++ branchEffects lib ambient df mode ++ conclusionEffects
    dfOut := df
    clustered := df_clustered lib ambient df
    labels := fittedLabels lib ambient df }

/-- Number of times stage `stage` is fitted in a trace. -/
def countFit (trace : List Effect) (stage : String) : Nat :=
  trace.countP (fun e => e == Effect.fitStage stage)

/-- The charts a trace renders, in order. -/
def chartsOf (trace : List Effect) : List Chart :=
  trace.filterMap (fun e => match e with
    | Effect.pyplot c => some c
    | _ => none)

/-- All coordinate tuples a chart scatters (empty for non-3-D charts). -/
def scatterPoints : Chart → List (List Value)
  | Chart.scatter3d layers _ _ _ _ => (layers.map ScatterLayer.pts).flatten
  | _ => []

/-- The centroid overlay of a chart, if any. -/
def chartCentroids : Chart → Option (List (List Rat))
  | Chart.scatter3d _ c _ _ _ => c
  | _ => none

/-- The axis labels of a 3-D chart. -/
def chartAxes : Chart → List String
  | Chart.scatter3d _ _ xl yl zl => [xl, yl, zl]
  | _ => []

/-- The mode string of the centroid-free 3-D view. -/
def modeSem : String := "Cluster em 3D (sem dispersão)"

/-- The mode string of the 3-D view with dispersion and centroids. -/
def modeCom : String := "Cluster em 3D (com dispersão)"

/-- A concrete library instance used to evaluate the embedding on concrete
inputs: it satisfies every contract above (rows preserved, PCA width `n`,
labels `i % k`). -/
def trivLib : SkLib :=
  { preprocessFT := fun df => df.rows.map (fun _ => [0])
    pcaFT := fun n _ X => X.map (fun _ => (List.range n).map (fun _ => (0 : Rat)))
    kmeansLabels := fun k _ _ X => (List.range X.length).map (fun i => i % k)
    kmeansCenters := fun k _ _ _ => (List.range k).map (fun _ => [0, 0, 0]) }

/-- A two-row customer table with the input file's schema. -/
def sampleDf : DataFrame :=
  { columns := ["Age", "Annual Income (k$)", "Spending Score (1-100)", "Gender"]
    rows := [[Value.num 19, Value.num 15, Value.num 39, Value.str "Male"],
             [Value.num 21, Value.num 15, Value.num 81, Value.str "Male"]] }

theorem trivLib_preRows : PreprocessRowsContract trivLib := by
  intro df; simp [trivLib, PreprocessRowsContract]

theorem trivLib_pcaRows : PcaRowsContract trivLib := by
  intro n s X; simp [trivLib]

theorem trivLib_pcaWidth : PcaWidthContract trivLib := by
  intro n s X r hr
  simp only [trivLib, List.mem_map] at hr
  obtain ⟨_, _, rfl⟩ := hr
  simp

theorem trivLib_kLen : KMeansLenContract trivLib := by
  intro k s i X; simp [trivLib]

theorem trivLib_kRange : KMeansRangeContract trivLib := by
  intro k s i X hk l hl
  simp only [trivLib, List.mem_map] at hl
  obtain ⟨j, _, rfl⟩ := hl
  exact Nat.mod_lt _ hk

/-! ### Helper lemmas -/

theorem mem_zipWith {α β γ : Type} {f : α → β → γ} {as : List α} {bs : List β} {c : γ}
    (h : c ∈ List.zipWith f as bs) : ∃ a b, a ∈ as ∧ b ∈ bs ∧ c = f a b := by
  induction as generalizing bs with
  | nil => simp at h
  | cons a as ih =>
    cases bs with
    | nil => simp at h
    | cons b bs =>
      rcases List.mem_cons.mp h with h | h
      · exact ⟨a, b, List.mem_cons_self .., List.mem_cons_self .., h⟩
      · obtain ⟨x, y, hx, hy, rfl⟩ := ih h
        exact ⟨x, y, List.mem_cons_of_mem _ hx, List.mem_cons_of_mem _ hy, rfl⟩

/-- The length of the label list equals the row count of the input table. -/
theorem fittedLabels_length {lib : SkLib} {ambient : Nat} {df : DataFrame}
    (hpre : PreprocessRowsContract lib) (hpca : PcaRowsContract lib)
    (hklen : KMeansLenContract lib) :
    (fittedLabels lib ambient df).length = df.rows.length := by
  rw [fittedLabels, hklen, pcaX, hpca, preprocessedX, hpre]

/-- Every fitted label is below the cluster count 5. -/
theorem fittedLabels_lt {lib : SkLib} {ambient : Nat} {df : DataFrame}
    (hkrng : KMeansRangeContract lib) :
    ∀ l ∈ fittedLabels lib ambient df, l < 5 :=
  fun l hl => hkrng kmeansParams.nClusters _ _ _ (by norm_num [kmeansParams]) l hl

/-- No branch of the dispatch emits an `st.error`: the only error site is the
column guard of `visualizar_cluster`, and both 3-D branches pass a dataframe
that has just received its `cluster` column. -/
theorem error_notin_branch (lib : SkLib) (ambient : Nat) (df : DataFrame) (mode : String)
    (s : String) : Effect.error s ∉ branchEffects lib ambient df mode := by
  by_cases h1 : mode = "Pairplot"
  · subst h1; simp [branchEffects]
  by_cases h2 : mode = "Boxplot por Cluster"
  · subst h2; simp [branchEffects]
  by_cases h3 : mode = "Boxplot por Gênero"
  · subst h3; simp [branchEffects]
  by_cases h4 : mode = "Cluster em 3D (sem dispersão)"
  · subst h4
    simp [branchEffects, fitPrefixEffects, visualizar_cluster, colContains,
      dfPca, dfPcaBase, DataFrame.addColumn]
  by_cases h5 : mode = "Cluster em 3D (com dispersão)"
  · subst h5
    simp [branchEffects, fitPrefixEffects, visualizar_cluster, colContains,
      dfPca, dfPcaBase, DataFrame.addColumn]
  simp [branchEffects, h1, h2, h3, h4, h5]

/-- When the cluster column exists, `visualizar_cluster` renders exactly one
3-D scatter chart. -/
theorem visualizar_pass (dataframe : DataFrame) (colunas : List String)
    (quantidade_cores : Nat) (centroids : Option (List (List Rat)))
    (mostrar_pontos : Bool) (coluna_clusters : Option String)
    (h : colContains dataframe.columns coluna_clusters = true) :
    visualizar_cluster dataframe colunas quantidade_cores centroids mostrar_pontos
        coluna_clusters =
      [Effect.pyplot (Chart.scatter3d ((List.range quantidade_cores).map (fun i =>
        ({ colorIdx := i
           pts := (if mostrar_pontos then filterByCluster dataframe coluna_clusters i
               else dataframe.rows).map (fun r => colunas.map (cellAt dataframe r))
           legend := "Cluster " ++ toString i } : ScatterLayer)))
        centroids (colunas.getD 0 "") (colunas.getD 1 "") (colunas.getD 2 ""))] := by
  simp [visualizar_cluster, h]

/-- No run of the script ever surfaces an `st.error`. -/
theorem error_notin_trace (lib : SkLib) (ambient : Nat) (df : DataFrame) (mode : String)
    (s : String) : Effect.error s ∉ (runScript lib ambient df mode).trace := by
  intro hmem
  rcases List.mem_append.mp hmem with hmem | hmem
  · rcases List.mem_append.mp hmem with hmem | hmem
    · simp [preEffects] at hmem
    · exact error_notin_branch lib ambient df mode s hmem
  · simp [conclusionEffects] at hmem

/-- Effects of the selected branch are effects of the whole run. -/
theorem mem_trace_of_mem_branch {lib : SkLib} {ambient : Nat} {df : DataFrame}
    {mode : String} {e : Effect} (h : e ∈ branchEffects lib ambient df mode) :
    e ∈ (runScript lib ambient df mode).trace :=
  List.mem_append.mpr (Or.inl (List.mem_append.mpr (Or.inr h)))

/-- When the cluster column exists, `visualizar_cluster` renders some chart. -/
theorem pyplot_mem_of_visualizar (dataframe : DataFrame) (colunas : List String)
    (qc : Nat) (cents : Option (List (List Rat))) (mp : Bool) (cc : Option String)
    (h : colContains dataframe.columns cc = true) :
    ∃ c, Effect.pyplot c ∈ visualizar_cluster dataframe colunas qc cents mp cc :=
  ⟨_, by rw [visualizar_pass _ _ _ _ _ _ h]; exact List.mem_cons_self ..⟩

/-- The effect list of the `sem dispersão` branch. -/
theorem branch_sem_eq (lib : SkLib) (ambient : Nat) (df : DataFrame) :
    branchEffects lib ambient df modeSem =
      ([Effect.write "### Cluster em 3D (sem dispersão)",
        Effect.write "Visualização dos clusters em 3D após aplicação do PCA."] ++
       fitPrefixEffects) ++
      visualizar_cluster (dfPca lib ambient df) ["pca0", "pca1", "pca2"] 5
        none false (some "cluster") := rfl

/-- The effect list of the `com dispersão` branch. -/
theorem branch_com_eq (lib : SkLib) (ambient : Nat) (df : DataFrame) :
    branchEffects lib ambient df modeCom =
      ([Effect.write "### Cluster em 3D (com dispersão)",
        Effect.write "Visualização dos clusters em 3D com dispersão após aplicação do PCA."] ++
       fitPrefixEffects) ++
      visualizar_cluster (dfPca lib ambient df) ["pca0", "pca1", "pca2"] 5
        (some (fittedCenters lib ambient df)) true (some "cluster") := rfl

/-- All coordinate tuples scattered by the charts of a trace. -/
def allPoints (trace : List Effect) : List (List Value) :=
  ((chartsOf trace).map scatterPoints).flatten

/-- The reduced coordinates `visualizar_cluster` reads off a row of `df_pca`
(the cells of columns `pca0, pca1, pca2`). -/
def pcaCoordsRow (lib : SkLib) (ambient : Nat) (df : DataFrame) (r : List Value) : List Value :=
  (["pca0", "pca1", "pca2"] : List String).map (cellAt (dfPca lib ambient df) r)

/-- Membership in a 3-D chart's point cloud is membership in some layer. -/
theorem scatterPoints_scatter3d_mem (layers : List ScatterLayer)
    (cents : Option (List (List Rat))) (xl yl zl : String) (p : List Value) :
    p ∈ scatterPoints (Chart.scatter3d layers cents xl yl zl) ↔
      ∃ lay ∈ layers, p ∈ lay.pts := by
  simp [scatterPoints, List.mem_flatten, List.mem_map]

/-- Points plotted in `sem dispersão` mode: every row of `df_pca`, once per
colour (the loop plots the whole dataframe five times). -/
theorem allPoints_sem_mem (lib : SkLib) (ambient : Nat) (df : DataFrame) (p : List Value) :
    p ∈ allPoints (runScript lib ambient df modeSem).trace ↔
      ∃ i < 5, ∃ row ∈ (dfPca lib ambient df).rows,
        pcaCoordsRow lib ambient df row = p := by
  have h1 : chartsOf (runScript lib ambient df modeSem).trace =
      [Chart.scatter3d ((List.range 5).map (fun i =>
        ({ colorIdx := i
           pts := (dfPca lib ambient df).rows.map (pcaCoordsRow lib ambient df)
           legend := "Cluster " ++ toString i } : ScatterLayer)))
        none "pca0" "pca1" "pca2"] := rfl
  rw [allPoints, h1]
  simp [scatterPoints_scatter3d_mem, List.mem_map, List.mem_range]

/-- Points plotted in `com dispersão` mode: the rows of `df_pca`, partitioned
by cluster label. -/
theorem allPoints_com_mem (lib : SkLib) (ambient : Nat) (df : DataFrame) (p : List Value) :
    p ∈ allPoints (runScript lib ambient df modeCom).trace ↔
      ∃ i < 5, ∃ row ∈ filterByCluster (dfPca lib ambient df) (some "cluster") i,
        pcaCoordsRow lib ambient df row = p := by
  have h1 : chartsOf (runScript lib ambient df modeCom).trace =
      [Chart.scatter3d ((List.range 5).map (fun i =>
        ({ colorIdx := i
           pts := (filterByCluster (dfPca lib ambient df) (some "cluster") i).map
             (pcaCoordsRow lib ambient df)
           legend := "Cluster " ++ toString i } : ScatterLayer)))
        (some (fittedCenters lib ambient df)) "pca0" "pca1" "pca2"] := rfl
  rw [allPoints, h1]
  simp [scatterPoints_scatter3d_mem, List.mem_map, List.mem_range]

/-- Each row of `df_pca` is three numeric PCA cells plus the label cell. -/
theorem dfPca_rows_shape (lib : SkLib) (ambient : Nat) (df : DataFrame)
    (hw : PcaWidthContract lib) :
    ∀ row ∈ (dfPca lib ambient df).rows,
      ∃ a b c l, row = [Value.num a, Value.num b, Value.num c, labelValue l] ∧
        l ∈ fittedLabels lib ambient df := by
  intro row hrow
  have hrows : (dfPca lib ambient df).rows =
      List.zipWith (fun r v => r ++ [v]) ((pcaX lib ambient df).map (List.map Value.num))
        ((fittedLabels lib ambient df).map labelValue) := rfl
  rw [hrows] at hrow
  obtain ⟨br, v, hbr, hv, rfl⟩ := mem_zipWith hrow
  simp only [List.mem_map] at hbr hv
  obtain ⟨q, hq, rfl⟩ := hbr
  obtain ⟨l, hl, rfl⟩ := hv
  obtain ⟨a, b, c, rfl⟩ := List.length_eq_three.mp (hw _ _ _ q hq)
  exact ⟨a, b, c, l, rfl, hl⟩

/-- Every reduced-coordinate row of the PCA output appears (extended by its
label) among the rows of `df_pca`. -/
theorem mem_dfPca_rows (lib : SkLib) (ambient : Nat) (df : DataFrame)
    (hklen : KMeansLenContract lib) :
    ∀ r ∈ pcaX lib ambient df, ∃ l ∈ fittedLabels lib ambient df,
      r.map Value.num ++ [labelValue l] ∈ (dfPca lib ambient df).rows := by
  intro r hr
  obtain ⟨i, hi, rfl⟩ := List.mem_iff_getElem.mp hr
  have hlen : (fittedLabels lib ambient df).length = (pcaX lib ambient df).length :=
    hklen _ _ _ _
  have hi2 : i < (fittedLabels lib ambient df).length := by omega
  refine ⟨(fittedLabels lib ambient df)[i], List.getElem_mem hi2, ?_⟩
  have hrows : (dfPca lib ambient df).rows =
      List.zipWith (fun r v => r ++ [v]) ((pcaX lib ambient df).map (List.map Value.num))
        ((fittedLabels lib ambient df).map labelValue) := rfl
  have hz : i < (List.zipWith (fun r v => r ++ [v])
      ((pcaX lib ambient df).map (List.map Value.num))
      ((fittedLabels lib ambient df).map labelValue)).length := by
    rw [List.length_zipWith]
    simp only [List.length_map]
    omega
  have hmem := List.getElem_mem hz
  rw [List.getElem_zipWith] at hmem
  simp only [List.getElem_map] at hmem
  rw [hrows]
  exact hmem

/-! ### Claims -/

/-- C1: the fitted clustering stage assigns to each customer record exactly
one cluster label (one label per row) and every label is an integer in
`[0, 4]`; the cluster count 5 and the reduced-dimension count 3 are fixed
constants of the pipeline. -/
theorem C1_one_label_per_record_in_range (lib : SkLib) (ambient : Nat) (df : DataFrame)
    (mode : String) (hpre : PreprocessRowsContract lib) (hpca : PcaRowsContract lib)
    (hklen : KMeansLenContract lib) (hkrng : KMeansRangeContract lib) :
    (runScript lib ambient df mode).labels.length = df.rows.length ∧
    (∀ l ∈ (runScript lib ambient df mode).labels, l ≤ 4) ∧
    kmeansParams.nClusters = 5 ∧ pcaParams.nComponents = 3 := by
  refine ⟨fittedLabels_length hpre hpca hklen, ?_, rfl, rfl⟩
  intro l hl
  have h5 : l < 5 := fittedLabels_lt hkrng l hl
  omega

theorem C1_witness :
    (runScript trivLib 0 sampleDf "Pairplot").labels.length = sampleDf.rows.length :=
  (C1_one_label_per_record_in_range trivLib 0 sampleDf "Pairplot"
    trivLib_preRows trivLib_pcaRows trivLib_kLen trivLib_kRange).1

/-- C2: for a fixed input table and the hard-coded `RANDOM_STATE = 42`, the
per-record labels are a deterministic function of the input table: they do
not depend on ambient entropy (which an unset `random_state` would consume)
nor on the selected visualisation mode, so two independent runs agree. -/
theorem C2_labels_deterministic (lib : SkLib) (df : DataFrame)
    (ambient₁ ambient₂ : Nat) (mode₁ mode₂ : String) :
    (runScript lib ambient₁ df mode₁).labels = (runScript lib ambient₂ df mode₂).labels := rfl

/-- C7: an unrecognised visualisation mode renders no chart and raises no
error: the `if/elif` dispatch falls through silently. -/
theorem C7_unknown_mode_silent (lib : SkLib) (ambient : Nat) (df : DataFrame)
    (mode : String) (h : mode ∉ OPCOES) :
    chartsOf (runScript lib ambient df mode).trace = [] ∧
    ∀ s, Effect.error s ∉ (runScript lib ambient df mode).trace := by
  simp only [OPCOES, List.mem_cons, List.not_mem_nil, or_false, not_or] at h
  obtain ⟨h1, h2, h3, h4, h5⟩ := h
  refine ⟨?_, fun s => error_notin_trace lib ambient df mode s⟩
  simp [runScript, branchEffects, h1, h2, h3, h4, h5, chartsOf,
    preEffects, conclusionEffects]

theorem C7_witness :
    chartsOf (runScript trivLib 0 sampleDf "Histograma").trace = [] :=
  (C7_unknown_mode_silent trivLib 0 sampleDf "Histograma" (by decide)).1

/-- C8: every run, whatever the selected mode, dumps the fitted pipeline to
the fixed path `modelos/pipeline_preprocessing_pca_clustering.pkl`, and the
dump happens right after the clustering stage is fitted. -/
theorem C8_dump_after_fit (lib : SkLib) (ambient : Nat) (df : DataFrame) (mode : String) :
    Effect.dump MODEL_PATH ∈ (runScript lib ambient df mode).trace ∧
    (runScript lib ambient df mode).trace.get? 3 = some (Effect.fitStage "clustering") ∧
    (runScript lib ambient df mode).trace.get? 4 = some (Effect.dump MODEL_PATH) := by
  refine ⟨?_, rfl, rfl⟩
  simp [runScript, preEffects]

/-- C4 counterexample: the claim says no branch fits any pipeline stage a
second time, but selecting the 3-D view runs
`pipeline[:-1].fit_transform(df)` (line 132), which refits the
`preprocessing` and `pca` stages: in that run the `pca` stage is fitted
twice, not at most once. -/
theorem C4_counterexample :
    countFit (runScript trivLib 0 sampleDf modeSem).trace "pca" = 2 ∧
    ¬ countFit (runScript trivLib 0 sampleDf modeSem).trace "pca" ≤ 1 := by
  decide

/-- C4 (amended): the three-stage pipeline is composed and fitted on the full
dataset exactly once at startup, and the clustering stage is never fitted a
second time; however each 3-D branch refits the `preprocessing` and `pca`
stages once more through `pipeline[:-1].fit_transform(df)` (the non-3-D
branches fit nothing further). -/
theorem C4_fit_counts (lib : SkLib) (ambient : Nat) (df : DataFrame) (mode : String) :
    countFit (runScript lib ambient df mode).trace "clustering" = 1 ∧
    (mode = modeSem ∨ mode = modeCom →
      countFit (runScript lib ambient df mode).trace "preprocessing" = 2 ∧
      countFit (runScript lib ambient df mode).trace "pca" = 2) ∧
    (¬(mode = modeSem ∨ mode = modeCom) →
      countFit (runScript lib ambient df mode).trace "preprocessing" = 1 ∧
      countFit (runScript lib ambient df mode).trace "pca" = 1) := by
  by_cases h1 : mode = "Pairplot"
  · subst h1
    exact ⟨rfl, fun h => absurd h (by decide), fun _ => ⟨rfl, rfl⟩⟩
  by_cases h2 : mode = "Boxplot por Cluster"
  · subst h2
    exact ⟨rfl, fun h => absurd h (by decide), fun _ => ⟨rfl, rfl⟩⟩
  by_cases h3 : mode = "Boxplot por Gênero"
  · subst h3
    exact ⟨rfl, fun h => absurd h (by decide), fun _ => ⟨rfl, rfl⟩⟩
  by_cases h4 : mode = "Cluster em 3D (sem dispersão)"
  · subst h4
    exact ⟨rfl, fun _ => ⟨rfl, rfl⟩, fun h => absurd (Or.inl rfl) h⟩
  by_cases h5 : mode = "Cluster em 3D (com dispersão)"
  · subst h5
    exact ⟨rfl, fun _ => ⟨rfl, rfl⟩, fun h => absurd (Or.inr rfl) h⟩
  have hb : branchEffects lib ambient df mode = [] := by
    simp [branchEffects, h1, h2, h3, h4, h5]
  have ht : (runScript lib ambient df mode).trace = preEffects ++ [] ++ conclusionEffects := by
    simp [runScript, hb]
  rw [ht]
  refine ⟨rfl, fun h => ?_, fun _ => ⟨rfl, rfl⟩⟩
  rcases h with h | h
  · exact absurd h h4
  · exact absurd h h5

theorem C4_witness :
    countFit (runScript trivLib 0 sampleDf modeCom).trace "preprocessing" = 2 :=
  ((C4_fit_counts trivLib 0 sampleDf modeCom).2.1 (Or.inr rfl)).1

/-- C5: the reduced coordinates produced by the `preprocessing → pca` prefix
of the pipeline have exactly 3 components per record, and the dataframe the
3-D branches build from them carries exactly the three columns
`pca0, pca1, pca2`. -/
theorem C5_reduced_coords_three_components (lib : SkLib) (ambient : Nat) (df : DataFrame)
    (hw : PcaWidthContract lib) :
    (∀ r ∈ pcaX lib ambient df, r.length = 3) ∧
    (∀ r ∈ (dfPcaBase lib ambient df).rows, r.length = 3) ∧
    (dfPcaBase lib ambient df).columns = ["pca0", "pca1", "pca2"] := by
  refine ⟨fun r hr => hw _ _ _ r hr, ?_, rfl⟩
  intro r hr
  simp only [dfPcaBase, List.mem_map] at hr
  obtain ⟨p, hp, rfl⟩ := hr
  simp [hw _ _ _ p hp, pcaParams]

theorem C5_witness :
    (dfPcaBase trivLib 0 sampleDf).columns = ["pca0", "pca1", "pca2"] :=
  (C5_reduced_coords_three_components trivLib 0 sampleDf trivLib_pcaWidth).2.2

/-- C6: calling `visualizar_cluster` with a `coluna_clusters` that is not a
column of the dataframe surfaces exactly one user-visible error message and
returns without rendering any chart; when the column exists the function
always renders a chart; and this guard is the only validation in the program:
any error a run could ever surface is the guard's message (in fact no run
surfaces one). -/
theorem C6_column_guard :
    (∀ (dataframe : DataFrame) (colunas : List String) (qc : Nat)
        (cents : Option (List (List Rat))) (mp : Bool) (cc : Option String),
      colContains dataframe.columns cc = false →
      visualizar_cluster dataframe colunas qc cents mp cc =
        [Effect.error ("Coluna '" ++ ocString cc ++ "' não encontrada no dataframe.")]) ∧
    (∀ (dataframe : DataFrame) (colunas : List String) (qc : Nat)
        (cents : Option (List (List Rat))) (mp : Bool) (cc : Option String),
      colContains dataframe.columns cc = true →
      ∃ c, visualizar_cluster dataframe colunas qc cents mp cc = [Effect.pyplot c]) ∧
    (∀ (lib : SkLib) (ambient : Nat) (df : DataFrame) (mode : String) (s : String),
      Effect.error s ∈ (runScript lib ambient df mode).trace →
      s = "Coluna '" ++ ocString (some "cluster") ++ "' não encontrada no dataframe.") := by
  refine ⟨fun dataframe colunas qc cents mp cc h => ?_,
    fun dataframe colunas qc cents mp cc h => ?_,
    fun lib ambient df mode s hs => absurd hs (error_notin_trace lib ambient df mode s)⟩
  · simp [visualizar_cluster, h]
  · exact ⟨_, visualizar_pass dataframe colunas qc cents mp cc h⟩

theorem C6_witness :
    visualizar_cluster sampleDf ["Age", "Annual Income (k$)", "Spending Score (1-100)"]
      5 none false (some "segmento") =
      [Effect.error ("Coluna '" ++ ocString (some "segmento") ++ "' não encontrada no dataframe.")] :=
  C6_column_guard.1 sampleDf ["Age", "Annual Income (k$)", "Spending Score (1-100)"]
    5 none false (some "segmento") (by decide)

/-- C9: the loaded table `df` is never mutated: the run leaves it exactly as
read, and the cluster labels are attached only to the copy `df_clustered`,
which carries the original columns plus a new `cluster` column and, per row,
the original cells followed by that row's label. -/
theorem C9_df_immutable (lib : SkLib) (ambient : Nat) (df : DataFrame) (mode : String)
    (hpre : PreprocessRowsContract lib) (hpca : PcaRowsContract lib)
    (hklen : KMeansLenContract lib) :
    (runScript lib ambient df mode).dfOut = df ∧
    (runScript lib ambient df mode).clustered.columns = df.columns ++ ["cluster"] ∧
    (runScript lib ambient df mode).clustered.rows.length = df.rows.length ∧
    ∀ (i : Nat) (h1 : i < df.rows.length)
      (h2 : i < (runScript lib ambient df mode).clustered.rows.length),
      (runScript lib ambient df mode).clustered.rows.get ⟨i, h2⟩ =
        df.rows.get ⟨i, h1⟩ ++ [labelValue ((runScript lib ambient df mode).labels.getD i 0)] := by
  have hlab : (fittedLabels lib ambient df).length = df.rows.length :=
    fittedLabels_length hpre hpca hklen
  refine ⟨rfl, rfl, ?_, ?_⟩
  · simp only [runScript, df_clustered, DataFrame.addColumn, List.length_zipWith,
      List.length_map, hlab, Nat.min_self]
  · intro i h1 h2
    have h3 : i < (fittedLabels lib ambient df).length := by omega
    simp only [runScript, df_clustered, DataFrame.addColumn] at h2 ⊢
    rw [List.get_eq_getElem, List.get_eq_getElem, List.getElem_zipWith]
    simp only [List.getElem_map, List.getD_eq_getElem?_getD, List.getElem?_eq_getElem h3,
      Option.getD_some]

theorem C9_witness :
    (runScript trivLib 0 sampleDf "Pairplot").dfOut = sampleDf ∧
    (runScript trivLib 0 sampleDf "Pairplot").clustered.columns =
      sampleDf.columns ++ ["cluster"] :=
  ⟨(C9_df_immutable trivLib 0 sampleDf "Pairplot"
      trivLib_preRows trivLib_pcaRows trivLib_kLen).1,
   (C9_df_immutable trivLib 0 sampleDf "Pairplot"
      trivLib_preRows trivLib_pcaRows trivLib_kLen).2.1⟩

/-- C10: at both call sites of `visualizar_cluster`, the dataframe `df_pca`
has just received its `cluster` column, so the missing-column error branch is
unreachable in this program: whichever 3-D mode is selected, a chart is
rendered and no error is surfaced. -/
theorem C10_3d_call_sites_safe (lib : SkLib) (ambient : Nat) (df : DataFrame)
    (mode : String) (h : mode = modeSem ∨ mode = modeCom) :
    colContains (dfPca lib ambient df).columns (some "cluster") = true ∧
    (∃ c, Effect.pyplot c ∈ (runScript lib ambient df mode).trace) ∧
    ∀ s, Effect.error s ∉ (runScript lib ambient df mode).trace := by
  have hcol : colContains (dfPca lib ambient df).columns (some "cluster") = true := rfl
  refine ⟨hcol, ?_, fun s => error_notin_trace lib ambient df mode s⟩
  rcases h with rfl | rfl
  · obtain ⟨c, hc⟩ := pyplot_mem_of_visualizar (dfPca lib ambient df)
      ["pca0", "pca1", "pca2"] 5 none false (some "cluster") hcol
    refine ⟨c, mem_trace_of_mem_branch ?_⟩
    rw [branch_sem_eq]
    exact List.mem_append.mpr (Or.inr hc)
  · obtain ⟨c, hc⟩ := pyplot_mem_of_visualizar (dfPca lib ambient df)
      ["pca0", "pca1", "pca2"] 5 (some (fittedCenters lib ambient df)) true (some "cluster") hcol
    refine ⟨c, mem_trace_of_mem_branch ?_⟩
    rw [branch_com_eq]
    exact List.mem_append.mpr (Or.inr hc)

theorem C10_witness :
    colContains (dfPca trivLib 0 sampleDf).columns (some "cluster") = true :=
  (C10_3d_call_sites_safe trivLib 0 sampleDf modeSem (Or.inl rfl)).1

/-- C3: the two 3-D modes plot the same underlying reduced coordinates —
every coordinate tuple plotted by one mode is plotted by the other, and every
record's reduced coordinates are plotted — and the charts differ only in the
overlay: same axes, but `sem dispersão` scatters every row under each colour
with no centroids, while `com dispersão` scatters rows grouped by cluster and
overlays the centroids. -/
theorem C3_3d_modes_same_coordinates (lib : SkLib) (ambient : Nat) (df : DataFrame)
    (hklen : KMeansLenContract lib) (hkrng : KMeansRangeContract lib)
    (hw : PcaWidthContract lib) :
    (chartsOf (runScript lib ambient df modeSem).trace).map chartCentroids = [none] ∧
    (chartsOf (runScript lib ambient df modeCom).trace).map chartCentroids =
      [some (fittedCenters lib ambient df)] ∧
    (chartsOf (runScript lib ambient df modeSem).trace).map chartAxes =
      (chartsOf (runScript lib ambient df modeCom).trace).map chartAxes ∧
    (∀ p, p ∈ allPoints (runScript lib ambient df modeSem).trace ↔
        p ∈ allPoints (runScript lib ambient df modeCom).trace) ∧
    (∀ r ∈ pcaX lib ambient df,
        r.map Value.num ∈ allPoints (runScript lib ambient df modeSem).trace) := by
  refine ⟨rfl, rfl, rfl, ?_, ?_⟩
  · intro p
    rw [allPoints_sem_mem, allPoints_com_mem]
    constructor
    · rintro ⟨i, hi, row, hrow, rfl⟩
      obtain ⟨a, b, c, l, rfl, hl⟩ := dfPca_rows_shape lib ambient df hw _ hrow
      have hl5 : l < 5 := fittedLabels_lt hkrng l hl
      refine ⟨l, hl5, _, List.mem_filter.mpr ⟨hrow, ?_⟩, rfl⟩
      show (cellAt (dfPca lib ambient df)
          [Value.num a, Value.num b, Value.num c, labelValue l] "cluster"
        == labelValue l) = true
      simp only [beq_iff_eq]
      rfl
    · rintro ⟨i, hi, row, hrow, rfl⟩
      exact ⟨i, hi, row, List.mem_of_mem_filter hrow, rfl⟩
  · intro r hr
    obtain ⟨l, hl, hmem⟩ := mem_dfPca_rows lib ambient df hklen r hr
    rw [allPoints_sem_mem]
    obtain ⟨a, b, c, rfl⟩ := List.length_eq_three.mp (hw _ _ _ r hr)
    exact ⟨0, by norm_num, _, hmem, rfl⟩

theorem C3_witness :
    (chartsOf (runScript trivLib 0 sampleDf modeSem).trace).map chartCentroids = [none] ∧
    (chartsOf (runScript trivLib 0 sampleDf modeSem).trace).map chartAxes =
      (chartsOf (runScript trivLib 0 sampleDf modeCom).trace).map chartAxes :=
  ⟨(C3_3d_modes_same_coordinates trivLib 0 sampleDf
      trivLib_kLen trivLib_kRange trivLib_pcaWidth).1,
   (C3_3d_modes_same_coordinates trivLib 0 sampleDf
      trivLib_kLen trivLib_kRange trivLib_pcaWidth).2.2.1⟩

end App
